import Mathlib

/-
Verification development for the usb_resetter repository.

The repository contains two Python sources with the relevant logic:
  * src/usb_resetter/usb_resetter.py  (the packaged tool, version 1.3.2)
  * src/usb_reset.py                  (a historical standalone script, version 1.1.0)

This file gives a shallow embedding of the functions the claims are about:
`get_usb_devices_paths` (the debug-tree parser), `get_usb_hubs`,
`hub_binder` / `reset_usb_hubs`, `send_signal_usb_device` and the
USBDEVFS_* constants.  Python streams are modelled as lists of
newline-stripped lines (file.readline returns "" exactly at end of file,
which corresponds to the end of the list; a physical line is never the
empty string).  The operating system is modelled by an explicit `World`
record of oracles (file existence, file contents, write outcomes, open
and ioctl outcomes).  Python exceptions are modelled with `Except`;
reading a local variable before any assignment is the `unboundLocal`
error, looking up a name that is assigned nowhere in the function is the
`nameError` error.  Regular-expression matching (re.match with
re.IGNORECASE) is implemented character by character for exactly the four
patterns the sources use; the model covers ASCII text, which is all the
kernel debug stream produces.
-/

/-- Python's `\s` character class (ASCII range). -/
def isPySpace (c : Char) : Bool :=
  c = ' ' || c = '\t' || c = '\n' || c = '\r' || c = '\x0b' || c = '\x0c'

/-- Python's `\d` character class (ASCII range). -/
def isDigitCh (c : Char) : Bool :=
  '0' ≤ c && c ≤ '9'

/-- `[0-9A-F]` under re.IGNORECASE, i.e. an ASCII hex digit of either case. -/
def isHexCh (c : Char) : Bool :=
  isDigitCh c || ('A' ≤ c && c ≤ 'F') || ('a' ≤ c && c ≤ 'f')

/-- Case-insensitive character comparison, as re.IGNORECASE performs it. -/
def ciEq (a b : Char) : Bool :=
  a.toLower == b.toLower

/-- Consume the literal pattern `ps` case-insensitively at the head of `cs`,
returning the rest of the input. -/
def dropCi : List Char → List Char → Option (List Char)
  | [], cs => some cs
  | _ :: _, [] => none
  | p :: ps, c :: cs => if ciEq p c then dropCi ps cs else none

/-- Match `\s+` (greedy, one or more) at the head of the input. -/
def ws1 : List Char → Option (List Char)
  | [] => none
  | c :: cs => if isPySpace c then some (cs.dropWhile isPySpace) else none

/-- Numeric value of a list of ASCII digits, as Python `int` reads it. -/
def digitsToNat (ds : List Char) : Nat :=
  ds.foldl (fun a c => a * 10 + (c.toNat - 48)) 0

/-- Match `(\d+)` (greedy, one or more digits) at the head of the input,
returning the captured value and the rest. -/
def digits1 (cs : List Char) : Option (Nat × List Char) :=
  let ds := cs.takeWhile isDigitCh
  if ds.isEmpty then none
  else some (digitsToNat ds, cs.dropWhile isDigitCh)

/-- Match `Dev#=\s+(\d+)` at the head of the input. -/
def devTail (cs : List Char) : Option Nat := do
  let cs ← dropCi "Dev#=".data cs
  let cs ← ws1 cs
  let (d, _) ← digits1 cs
  some d

/-- Match `.*Dev#=\s+(\d+)`: the greedy `.*` (which cannot cross a newline)
prefers the rightmost position at which the tail pattern matches. -/
def findLastDev : List Char → Option Nat
  | [] => none
  | c :: rest =>
    match (if c = '\n' then none else findLastDev rest) with
    | some d => some d
    | none => devTail (c :: rest)

/-- re.match(r"T:\s+Bus=(\d+).*Dev#=\s+(\d+)", line, re.IGNORECASE),
returning the two captured numbers converted by Python `int`. -/
def matchT (line : String) : Option (Nat × Nat) := do
  let cs ← dropCi "T:".data line.data
  let cs ← ws1 cs
  let cs ← dropCi "Bus=".data cs
  let (b, cs) ← digits1 cs
  let d ← findLastDev cs
  some (b, d)

/-- re.match(r"S:\s+Manufacturer=(.*)", line, re.IGNORECASE); the capture
runs to the end of the line (`.` does not cross a newline). -/
def matchManufacturer (line : String) : Option String := do
  let cs ← dropCi "S:".data line.data
  let cs ← ws1 cs
  let cs ← dropCi "Manufacturer=".data cs
  some (String.mk (cs.takeWhile (· ≠ '\n')))

/-- re.match(r"S:\s+Product=(.*)", line, re.IGNORECASE). -/
def matchProduct (line : String) : Option String := do
  let cs ← dropCi "S:".data line.data
  let cs ← ws1 cs
  let cs ← dropCi "Product=".data cs
  some (String.mk (cs.takeWhile (· ≠ '\n')))

/-- Match exactly four hex digits, returned as written in the input. -/
def hex4 : List Char → Option (List Char × List Char)
  | a :: b :: c :: d :: rest =>
    if isHexCh a && isHexCh b && isHexCh c && isHexCh d then
      some ([a, b, c, d], rest)
    else none
  | _ => none

/-- re.match(r"P:\s+Vendor=([0-9A-F]{4})\s+ProdID=([0-9A-F]{4})", line,
re.IGNORECASE); captures keep the case they have in the input. -/
def matchVendorProd (line : String) : Option (String × String) := do
  let cs ← dropCi "P:".data line.data
  let cs ← ws1 cs
  let cs ← dropCi "Vendor=".data cs
  let (v, cs) ← hex4 cs
  let cs ← ws1 cs
  let cs ← dropCi "ProdID=".data cs
  let (p, _) ← hex4 cs
  some (String.mk v, String.mk p)

/-- Decimal digit characters of `n`, most significant first, prepended to
`acc`; structural in a fuel argument so that it evaluates by `decide`. -/
def decReprCore : Nat → Nat → List Char → List Char
  | 0, _, acc => acc
  | fuel + 1, n, acc =>
    let d := Char.ofNat (48 + n % 10)
    if n < 10 then d :: acc
    else decReprCore fuel (n / 10) (d :: acc)

/-- Decimal representation of a natural number, as Python formats a
non-negative int with `"{:d}"`. -/
def decRepr (n : Nat) : String :=
  String.mk (decReprCore (n + 1) n [])

/-- Python `"{:03d}".format(n)` for a non-negative `n`: the decimal digits
left-padded with `'0'` to a width of at least three. -/
def pad3 (n : Nat) : String :=
  let s := decRepr n
  String.mk (List.replicate (3 - s.length) '0') ++ s

/-- Does the character list start with the pattern `ps`? -/
def listStarts (cs ps : List Char) : Bool :=
  match ps, cs with
  | [], _ => true
  | _ :: _, [] => false
  | p :: ps, c :: cs => p = c && listStarts cs ps

/-- Python str.startswith. -/
def pyStarts (s pat : String) : Bool :=
  listStarts s.data pat.data

/-- Python str.strip() (ASCII whitespace). -/
def pyStrip (s : String) : String :=
  String.mk (((s.data.dropWhile isPySpace).reverse.dropWhile isPySpace).reverse)

/-- os.path.join for two components (posixpath semantics). -/
def joinPath (a b : String) : String :=
  if b.data.head? = some '/' then b
  else if a = "" ∨ a.data.getLast? = some '/' then a ++ b
  else a ++ "/" ++ b

/-- Split a character list into the part up to and including the last `'/'`
and the remainder (the pieces Python's rfind-based basename and dirname
use). -/
def splitAtLastSlash : List Char → List Char × List Char
  | [] => ([], [])
  | c :: rest =>
    let p := splitAtLastSlash rest
    if p.1.isEmpty then
      if c = '/' then ([c], rest) else ([], c :: rest)
    else (c :: p.1, p.2)

/-- os.path.basename (posixpath): everything after the last slash. -/
def pyBasename (p : String) : String :=
  String.mk (splitAtLastSlash p.data).2

/-- os.path.dirname (posixpath): everything before the last slash, with
trailing slashes stripped unless the head is made of slashes only. -/
def pyDirname (p : String) : String :=
  let head := (splitAtLastSlash p.data).1
  if head.isEmpty || head.all (· = '/') then String.mk head
  else String.mk ((head.reverse.dropWhile (· = '/')).reverse)

/-- Split a character list at `'/'`, keeping empty pieces, like Python
str.split('/'). -/
def splitSlashAux : List Char → List Char → List String
  | [], acc => [String.mk acc.reverse]
  | c :: cs, acc =>
    if c = '/' then String.mk acc.reverse :: splitSlashAux cs []
    else splitSlashAux cs (c :: acc)

/-- Python path.split('/') on a string. -/
def splitSlash (p : String) : List String :=
  splitSlashAux p.data []

/-- '/'.join(components). -/
def joinComps : List String → String
  | [] => ""
  | [x] => x
  | x :: xs => x ++ "/" ++ joinComps xs

/-- posixpath.normpath. -/
def normpath (p : String) : String :=
  if p = "" then "."
  else
    let initial_slashes : Nat :=
      if p.data.head? = some '/' then
        if p.data.take 2 = ['/', '/'] ∧ ¬(p.data.take 3 = ['/', '/', '/']) then 2 else 1
      else 0
    let new_comps := (splitSlash p).foldl (fun acc comp =>
      if comp = "" ∨ comp = "." then acc
      else if comp ≠ ".." ∨ (initial_slashes = 0 ∧ acc = List.nil) ∨ acc.getLast? = some ".." then
        acc ++ [comp]
      else if acc ≠ List.nil then acc.dropLast
      else acc) []
    let res := String.mk (List.replicate initial_slashes '/') ++ joinComps new_comps
    if res = "" then "." else res

/-- Python truthiness of an optional string argument (None and "" are
falsy). -/
def pyTruthy : Option String → Bool
  | none => false
  | some s => !(s == "")

/-- Render an optional string the way Python's %s renders the value
(None prints as "None"). -/
def optStr : Option String → String
  | none => "None"
  | some s => s

/-- A Python exception, as far as the model needs to distinguish them. -/
inductive PyErr where
  | osError (msg : String)
  | unboundLocal (name : String)
  | nameError (name : String)
  | typeError (msg : String)
deriving DecidableEq

/-- The namedtuple Device("vendor_id, product_id, device_path, manufacturer,
product") built by both parsers. -/
structure Device where
  vendor_id : Option String
  product_id : Option String
  device_path : Option String
  manufacturer : Option String
  product : Option String
deriving DecidableEq

/-- The local variables of `get_usb_devices_paths` while the read loop runs,
plus the text printed so far.  `bus = none` / `dev = none` model the local
names before their first assignment (reading them then raises
UnboundLocalError).  In the usb_reset.py model `device_path = none` also
means "not yet assigned", since that script never initialises it; in the
usb_resetter.py model it means the initialised value None. -/
structure ParseState where
  first_device : Bool
  manufacturer : Option String
  product : Option String
  found_vendor_id : Option String
  found_product_id : Option String
  device_path : Option String
  bus : Option String
  dev : Option String
  found_devices : List Device
  device_paths : List String
  printed : List String
deriving DecidableEq

/-- The state at the top of the read loop. -/
def initState : ParseState :=
  { first_device := true
    manufacturer := none
    product := none
    found_vendor_id := none
    found_product_id := none
    device_path := none
    bus := none
    dev := none
    found_devices := []
    device_paths := []
    printed := [] }

/-- One write of `content` into the control file at `path`. -/
inductive Event where
  | write (path content : String)
deriving DecidableEq

/-- File-descriptor lifecycle events of `send_signal_usb_device`. -/
inductive FdEvent where
  | opened (fd : Nat)
  | ioctl (fd : Nat) (sig : Nat)
  | closed (fd : Nat)
deriving DecidableEq

/-- The operating-system state the scripts interact with, frozen for one
invocation: debugfs presence and contents, path existence, glob results,
readable file contents (`none` models an OSError on open/read), control
file write outcomes (`false` models an OSError on open/write), os.open
outcomes (`none` models an OSError) and ioctl outcomes (`false` models an
OSError). -/
structure World where
  debug_isfile : Bool
  debugLines : List String
  path_exists : String → Bool
  glob_usb_devices : List String
  glob_controllers : List String
  readFile : String → Option String
  writeOk : String → String → Bool
  openFd : String → Option Nat
  ioctlOk : Nat → Nat → Bool
  cwd : String

/-- os.path.abspath: normalise, prepending the working directory when the
path is relative. -/
def abspath (w : World) (p : String) : String :=
  if p.data.head? = some '/' then normpath p else normpath (joinPath w.cwd p)

namespace UsbResetter

/-- linux/usbdevice_fs.h _IO('U', 20): ord("U") shifted left by 8, or'd with
the command number (src/usb_resetter/usb_resetter.py line 45). -/
def USBDEVFS_RESET : Nat := Char.toNat 'U' <<< 8 ||| 20

/-- _IO('U', 22) (line 46). -/
def USBDEVFS_DISCONNECT : Nat := Char.toNat 'U' <<< 8 ||| 22

/-- _IO('U', 23) (line 47). -/
def USBDEVFS_CONNECT : Nat := Char.toNat 'U' <<< 8 ||| 23

/-- The well-known kernel debug listing path. -/
def kernel_usb_debug_path : String := "/sys/kernel/debug/usb/devices"

/-- The pci driver-control root checked by hub_binder. -/
def pci_unbind_path : String := "/sys/bus/pci/drivers"

/-- The generic usb driver-control root used by hub_binder. -/
def usb_unbind_path : String := "/sys/bus/usb/drivers/usb"

/-- The directory whose bind/unbind control files hub_binder writes to:
the hub's own parent directory when that already is a pci or usb
driver-control directory, the generic usb driver root otherwise
(usb_resetter.py lines 63-73, local variable unbind_path). -/
def unbind_path (hub_path : String) : String :=
  let basepath := pyDirname hub_path
  if pyStarts basepath pci_unbind_path || pyStarts basepath usb_unbind_path then basepath
  else usb_unbind_path

/-- hub_binder(hub_path, action): one write of the hub's basename into
`<unbind_path>/<action>` (lines 53-77).  The print to stdout is not part
of the write trace.  A failing open or write raises OSError, modelled as
an error naming the control file. -/
def hub_binder (w : World) (hub_path action : String) : Except PyErr Event :=
  let current_hub := pyBasename hub_path
  let target := joinPath (unbind_path hub_path) action
  if w.writeOk target current_hub then .ok (Event.write target current_hub)
  else .error (.osError target)

/-- reset_usb_hubs(hubs) (lines 124-127): unbind then bind for each hub in
order; an exception aborts the loop at once.  Returns the writes performed
and the exception, if one escaped. -/
def reset_usb_hubs (w : World) : List String → List Event × Option PyErr
  | [] => ([], none)
  | hub :: rest =>
    match hub_binder w hub "unbind" with
    | .error e => ([], some e)
    | .ok ev1 =>
      match hub_binder w hub "bind" with
      | .error e => ([ev1], some e)
      | .ok ev2 =>
        let r := reset_usb_hubs w rest
        (ev1 :: ev2 :: r.1, r.2)

/-- reset_usb_controllers() (lines 130-144). -/
def reset_usb_controllers (w : World) : List Event × Option PyErr :=
  reset_usb_hubs w w.glob_controllers

/-- The body of the get_usb_hubs loop (lines 88-111) for one glob entry:
returns the hubs appended and the lines printed for this entry. -/
def hub_entry (w : World) (vendor_id product_id : Option String) (entry : String) :
    List String × List String :=
  let hub_path := pyDirname entry
  let abs_hub_path := abspath w hub_path
  let vendor_id_file := joinPath abs_hub_path "idVendor"
  let product_id_file := joinPath abs_hub_path "idProduct"
  match w.readFile vendor_id_file with
  | none => ([], ["Cannot identify which vendor/product is plugged in hub " ++ hub_path])
  | some v1 =>
    match w.readFile product_id_file with
    | none => ([], ["Cannot identify which vendor/product is plugged in hub " ++ hub_path])
    | some p1 =>
      let found_vendor_id := pyStrip v1
      let found_product_id := pyStrip p1
      if (vendor_id = some found_vendor_id ∧ product_id = some found_product_id)
          ∨ (pyTruthy vendor_id = false ∧ pyTruthy product_id = false) then
        ([hub_path], [])
      else ([], [])

/-- The get_usb_hubs loop over the glob entries, in filesystem order. -/
def get_usb_hubs_loop (w : World) (vendor_id product_id : Option String) :
    List String → List String × List String
  | [] => ([], [])
  | entry :: rest =>
    let h := hub_entry w vendor_id product_id entry
    let r := get_usb_hubs_loop w vendor_id product_id rest
    (h.1 ++ r.1, h.2 ++ r.2)

/-- get_usb_hubs(vendor_id, product_id) (lines 80-113): the hub paths
collected and the diagnostics printed. -/
def get_usb_hubs (w : World) (vendor_id product_id : Option String) :
    List String × List String :=
  get_usb_hubs_loop w vendor_id product_id w.glob_usb_devices

/-- list_usb_hubs (lines 116-121): everything printed, diagnostics first
as the loop interleaves them before each Found line would not matter for
the claims; the model keeps the per-entry diagnostics then the found
lines. -/
def list_usb_hubs (w : World) (vendor_id product_id : Option String) : List String :=
  let r := get_usb_hubs w vendor_id product_id
  r.2 ++ r.1.map (fun hub => "Found hub " ++ hub)

/-- The first regex block of the read loop (lines 180-202): on a
`T:` header, emit the previous record unless this is the first header
(the accumulator fields are reset only in the first-header branch, exactly
as in the source), then assign bus and dev. -/
def stepT (s : ParseState) (line : String) : ParseState :=
  match matchT line with
  | none => s
  | some (b, d) =>
    let s1 :=
      if s.first_device = false then
        { s with found_devices := s.found_devices ++
            [{ vendor_id := s.found_vendor_id
               product_id := s.found_product_id
               device_path := s.device_path
               manufacturer := s.manufacturer
               product := s.product }] }
      else
        { s with first_device := false
                 manufacturer := none
                 product := none
                 found_vendor_id := none
                 found_product_id := none }
    { s1 with bus := some (pad3 b), dev := some (pad3 d) }

/-- The second regex block (lines 203-205). -/
def stepManufacturer (s : ParseState) (line : String) : ParseState :=
  match matchManufacturer line with
  | none => s
  | some m => { s with manufacturer := some m }

/-- The third regex block (lines 206-208). -/
def stepProduct (s : ParseState) (line : String) : ParseState :=
  match matchProduct line with
  | none => s
  | some m => { s with product := some m }

/-- os.path.join("/dev/bus/usb", bus, dev) (line 215). -/
def devicePathOf (bus dev : String) : String :=
  joinPath (joinPath "/dev/bus/usb" bus) dev

/-- The diagnostic printed when a matching device's path is absent
(lines 219-224). -/
def pathMissingMsg (bus dev : String) : String :=
  "Device path not existing for bus " ++ bus ++ " dev " ++ dev

/-- The fourth regex block (lines 209-224): store the captured ids as
written, derive device_path from the current bus and dev (reading them
before any `T:` header raises UnboundLocalError), and append the path to
the result when the caller's filter matches exactly and the path exists;
otherwise print a diagnostic. -/
def stepVendorProd (w : World) (vendor_id product_id : Option String)
    (s : ParseState) (line : String) : Except PyErr ParseState :=
  match matchVendorProd line with
  | none => .ok s
  | some (a, b) =>
    match s.bus, s.dev with
    | some bs, some ds =>
      let dp := devicePathOf bs ds
      let s1 := { s with found_vendor_id := some a
                         found_product_id := some b
                         device_path := some dp }
      if vendor_id = some a ∧ product_id = some b then
        if w.path_exists dp then
          .ok { s1 with device_paths := s1.device_paths ++ [dp] }
        else
          .ok { s1 with printed := s1.printed ++ [pathMissingMsg bs ds] }
      else .ok s1
    | _, _ => .error (.unboundLocal "bus")

/-- One iteration of the read loop (lines 177-224): the four regex blocks
are tried in sequence on the same line. -/
def processLine (w : World) (vendor_id product_id : Option String)
    (s : ParseState) (line : String) : Except PyErr ParseState :=
  stepVendorProd w vendor_id product_id
    (stepProduct (stepManufacturer (stepT s line) line) line) line

/-- The whole read loop, line by line until end of stream. -/
def processLines (w : World) (vendor_id product_id : Option String) :
    ParseState → List String → Except PyErr ParseState
  | s, [] => .ok s
  | s, l :: ls =>
    match processLine w vendor_id product_id s l with
    | .error e => .error e
    | .ok s' => processLines w vendor_id product_id s' ls

/-- The record built from the accumulator fields (lines 184-192, 227-235). -/
def mkDevice (s : ParseState) : Device :=
  { vendor_id := s.found_vendor_id
    product_id := s.found_product_id
    device_path := s.device_path
    manufacturer := s.manufacturer
    product := s.product }

/-- `if bus and dev:` followed by the final append (lines 225-235): reading
bus or dev raises UnboundLocalError when no header line ever assigned
them; both are non-empty strings whenever assigned, so the final record is
appended exactly when a header was seen. -/
def eofFlush (s : ParseState) : Except PyErr ParseState :=
  match s.bus with
  | none => .error (.unboundLocal "bus")
  | some bs =>
    if bs = "" then .ok s
    else
      match s.dev with
      | none => .error (.unboundLocal "dev")
      | some ds =>
        if ds = "" then .ok s
        else .ok { s with found_devices := s.found_devices ++ [mkDevice s] }

/-- The line printed per record under list_only (line 239). -/
def deviceMsg (d : Device) : String :=
  "Found device " ++ optStr d.vendor_id ++ ":" ++ optStr d.product_id ++
    " at " ++ optStr d.device_path ++ " Manufacturer=" ++ optStr d.manufacturer ++
    ", Product=" ++ optStr d.product

/-- The list_only printing loop (lines 237-239). -/
def listPrint (list_only : Bool) (s : ParseState) : ParseState :=
  if list_only then { s with printed := s.printed ++ s.found_devices.map deviceMsg }
  else s

/-- get_usb_devices_paths (usb_resetter.py lines 147-240).  The Python
function returns only device_paths; the model returns the whole final
state (records, paths, printed text) so the claims can speak about all of
it, or the exception that escaped. -/
def get_usb_devices_paths (w : World) (vendor_id product_id : Option String)
    (list_only : Bool) : Except PyErr ParseState :=
  if w.debug_isfile = false then
    .error (.osError ("Kernel path " ++ kernel_usb_debug_path ++
      " not found. Please run this script as root"))
  else
    match processLines w vendor_id product_id initState w.debugLines with
    | .error e => .error e
    | .ok s =>
      match eofFlush s with
      | .error e => .error e
      | .ok s2 => .ok (listPrint list_only s2)

/-- The signal-name dispatch of send_signal_usb_device (lines 258-265);
`none` models the TypeError raised for an unknown signal. -/
def sigOf (signal : String) : Option Nat :=
  if signal = "reset" then some USBDEVFS_RESET
  else if signal = "disconnect" then some USBDEVFS_DISCONNECT
  else if signal = "connect" then some USBDEVFS_CONNECT
  else none

/-- send_signal_usb_device (lines 243-278): validate the signal, open the
device, issue the ioctl, and close in a finally block.  When os.open
itself raises OSError the except block swallows it but the finally block
then reads the never-assigned local fd, raising UnboundLocalError; no
descriptor was opened and none is closed.  Returns the descriptor events
that actually happened together with the outcome. -/
def send_signal_usb_device (w : World) (device_path signal : String) :
    List FdEvent × Except PyErr Bool :=
  match sigOf signal with
  | none => ([], .error (.typeError "Bad USB signal given"))
  | some sig =>
    match w.openFd device_path with
    | some fd =>
      let success := w.ioctlOk fd sig
      ([.opened fd, .ioctl fd sig, .closed fd], .ok success)
    | none => ([], .error (.unboundLocal "fd"))

end UsbResetter

namespace UsbReset

/-- The constant of the historical script (src/usb_reset.py line 38):
ord("U") shifted left by 4*2, or'd with 20. -/
def USBDEVFS_RESET : Nat := Char.toNat 'U' <<< (4 * 2) ||| 20

/-- The same kernel debug path as the packaged version (line 82). -/
def kernel_usb_debug_path : String := "/sys/kernel/debug/usb/devices"

/-- The `T:` block of the historical read loop (usb_reset.py lines 98-125).
Identical to the packaged version except that this script never
initialises device_path, so emitting a record before any `P:` line has
assigned it raises UnboundLocalError. -/
def stepT (s : ParseState) (line : String) : Except PyErr ParseState :=
  match matchT line with
  | none => .ok s
  | some (b, d) =>
    if s.first_device = false then
      match s.device_path with
      | none => .error (.unboundLocal "device_path")
      | some dp =>
        .ok { s with
                found_devices := s.found_devices ++
                  [{ vendor_id := s.found_vendor_id,
                     product_id := s.found_product_id,
                     device_path := some dp,
                     manufacturer := s.manufacturer,
                     product := s.product }],
                bus := some (pad3 b),
                dev := some (pad3 d) }
    else
      .ok { s with
              first_device := false,
              manufacturer := none,
              product := none,
              found_vendor_id := none,
              found_product_id := none,
              bus := some (pad3 b),
              dev := some (pad3 d) }

/-- The `P:` block of the historical read loop (lines 132-147).  Identical
to the packaged version except for the diagnostic branch: its format call
refers to possible_bus / possible_dev, names assigned nowhere in the
function, so it raises NameError instead of printing. -/
def stepVendorProd (w : World) (vendor_id product_id : Option String)
    (s : ParseState) (line : String) : Except PyErr ParseState :=
  match matchVendorProd line with
  | none => .ok s
  | some (a, b) =>
    match s.bus, s.dev with
    | some bs, some ds =>
      let dp := UsbResetter.devicePathOf bs ds
      let s1 := { s with found_vendor_id := some a
                         found_product_id := some b
                         device_path := some dp }
      if vendor_id = some a ∧ product_id = some b then
        if w.path_exists dp then
          .ok { s1 with device_paths := s1.device_paths ++ [dp] }
        else .error (.nameError "possible_bus")
      else .ok s1
    | _, _ => .error (.unboundLocal "bus")

/-- One iteration of the historical read loop (lines 94-147). -/
def processLine (w : World) (vendor_id product_id : Option String)
    (s : ParseState) (line : String) : Except PyErr ParseState :=
  match stepT s line with
  | .error e => .error e
  | .ok s1 =>
    stepVendorProd w vendor_id product_id
      (UsbResetter.stepProduct (UsbResetter.stepManufacturer s1 line) line) line

/-- The historical read loop over the whole stream. -/
def processLines (w : World) (vendor_id product_id : Option String) :
    ParseState → List String → Except PyErr ParseState
  | s, [] => .ok s
  | s, l :: ls =>
    match processLine w vendor_id product_id s l with
    | .error e => .error e
    | .ok s' => processLines w vendor_id product_id s' ls

/-- The final `if bus and dev:` append of the historical script
(lines 148-158); reading the never-initialised device_path for the final
record raises UnboundLocalError when no `P:` line assigned it. -/
def eofFlush (s : ParseState) : Except PyErr ParseState :=
  match s.bus with
  | none => .error (.unboundLocal "bus")
  | some bs =>
    if bs = "" then .ok s
    else
      match s.dev with
      | none => .error (.unboundLocal "dev")
      | some ds =>
        if ds = "" then .ok s
        else
          match s.device_path with
          | none => .error (.unboundLocal "device_path")
          | some dp =>
            .ok { s with found_devices := s.found_devices ++
                    [{ vendor_id := s.found_vendor_id,
                       product_id := s.found_product_id,
                       device_path := some dp,
                       manufacturer := s.manufacturer,
                       product := s.product }] }

/-- get_usb_devices_paths of the historical script (usb_reset.py lines
70-163).  The one behavioural difference the claims care about: when the
kernel debug path is absent this version returns the empty device_paths
list instead of raising (lines 84-86). -/
def get_usb_devices_paths (w : World) (vendor_id product_id : Option String)
    (list_only : Bool) : Except PyErr ParseState :=
  if w.debug_isfile = false then
    .ok initState
  else
    match processLines w vendor_id product_id initState w.debugLines with
    | .error e => .error e
    | .ok s =>
      match eofFlush s with
      | .error e => .error e
      | .ok s2 => .ok (UsbResetter.listPrint list_only s2)

end UsbReset

section Helpers

/-- String append concatenates the underlying character lists. -/
theorem strData_append (a b : String) : (a ++ b).data = a.data ++ b.data := by
  cases a; cases b; rfl

/-- Strings with equal character lists are equal. -/
theorem strExt {a b : String} (h : a.data = b.data) : a = b := by
  cases a
  cases b
  exact congrArg String.mk h

/-- A digit character produced from a value below ten. -/
theorem isDigitCh_ofNat {k : Nat} (hk : k < 10) :
    isDigitCh (Char.ofNat (48 + k)) = true := by
  interval_cases k <;> decide

/-- The digits accumulated by decReprCore: they extend the accumulator on
the left, are non-empty once there is fuel, and are all digit
characters. -/
theorem decReprCore_spec (f : Nat) : ∀ (n : Nat) (acc : List Char),
    ∃ ds, decReprCore f n acc = ds ++ acc ∧ (1 ≤ f → ds ≠ []) ∧
      ∀ c ∈ ds, isDigitCh c = true := by
  induction f with
  | zero =>
    intro n acc
    exact ⟨[], rfl, by omega, by simp⟩
  | succ f ih =>
    intro n acc
    by_cases hn : n < 10
    · refine ⟨[Char.ofNat (48 + n % 10)], ?_, by simp, ?_⟩
      · simp [decReprCore, hn]
      · intro c hc
        simp at hc
        subst hc
        exact isDigitCh_ofNat (Nat.mod_lt _ (by omega))
    · obtain ⟨ds, hds, _, hdig⟩ := ih (n / 10) (Char.ofNat (48 + n % 10) :: acc)
      refine ⟨ds ++ [Char.ofNat (48 + n % 10)], ?_, by simp, ?_⟩
      · simp [decReprCore, hn, hds]
      · intro c hc
        rcases List.mem_append.mp hc with h | h
        · exact hdig c h
        · simp at h
          subst h
          exact isDigitCh_ofNat (Nat.mod_lt _ (by omega))

/-- The decimal representation is a non-empty list of digit characters. -/
theorem decRepr_spec (n : Nat) :
    (decRepr n).data ≠ [] ∧ ∀ c ∈ (decRepr n).data, isDigitCh c = true := by
  obtain ⟨ds, hds, hne, hdig⟩ := decReprCore_spec (n + 1) n []
  have h : (decRepr n).data = ds := by simp [decRepr, hds]
  refine ⟨?_, ?_⟩
  · rw [h]; exact hne (by omega)
  · rw [h]; exact hdig

/-- The characters of pad3 are all digits and there is at least one. -/
theorem pad3_spec (n : Nat) :
    (pad3 n).data ≠ [] ∧ ∀ c ∈ (pad3 n).data, isDigitCh c = true := by
  obtain ⟨hne, hdig⟩ := decRepr_spec n
  have h : (pad3 n).data =
      List.replicate (3 - (decRepr n).length) '0' ++ (decRepr n).data := by
    simp [pad3, strData_append]
  constructor
  · rw [h]
    intro hcontra
    exact hne (List.append_eq_nil.mp hcontra).2
  · rw [h]
    intro c hc
    rcases List.mem_append.mp hc with hrep | hmem
    · rw [List.eq_of_mem_replicate hrep]; decide
    · exact hdig c hmem

/-- A digit character is not a slash. -/
theorem digit_ne_slash {c : Char} (h : isDigitCh c = true) : c ≠ '/' := by
  intro hc
  subst hc
  simp [isDigitCh] at h

/-- pad3 never begins with a slash. -/
theorem pad3_head (n : Nat) :
    ∃ c cs, (pad3 n).data = c :: cs ∧ isDigitCh c = true := by
  obtain ⟨hne, hdig⟩ := pad3_spec n
  cases h : (pad3 n).data with
  | nil => exact absurd h hne
  | cons c cs =>
    exact ⟨c, cs, rfl, hdig c (by rw [h]; exact List.mem_cons_self c cs)⟩

/-- pad3 never ends with a slash. -/
theorem pad3_last (n : Nat) :
    ∃ c, (pad3 n).data.getLast? = some c ∧ isDigitCh c = true := by
  obtain ⟨hne, hdig⟩ := pad3_spec n
  cases h : (pad3 n).data.getLast? with
  | none => exact absurd (List.getLast?_eq_none_iff.mp h) hne
  | some c =>
    refine ⟨c, rfl, hdig c ?_⟩
    exact List.mem_of_mem_getLast? (by rw [h]; rfl)

/-- os.path.join("/dev/bus/usb", bus, dev) is plain slash-separated
concatenation once both components are pad3 outputs. -/
theorem devicePathOf_pad3 (n m : Nat) :
    UsbResetter.devicePathOf (pad3 n) (pad3 m) =
      "/dev/bus/usb/" ++ pad3 n ++ "/" ++ pad3 m := by
  obtain ⟨c1, cs1, hh1, hd1⟩ := pad3_head n
  obtain ⟨c2, cs2, hh2, hd2⟩ := pad3_head m
  obtain ⟨e1, hl1, hld1⟩ := pad3_last n
  have hnh1 : ¬((pad3 n).data.head? = some '/') := by
    rw [hh1]
    simp only [List.head?_cons, Option.some.injEq]
    exact digit_ne_slash hd1
  have hnh2 : ¬((pad3 m).data.head? = some '/') := by
    rw [hh2]
    simp only [List.head?_cons, Option.some.injEq]
    exact digit_ne_slash hd2
  have step1 : joinPath "/dev/bus/usb" (pad3 n) = "/dev/bus/usb" ++ "/" ++ pad3 n := by
    rw [joinPath, if_neg hnh1, if_neg (by decide)]
  have hne2 : ¬("/dev/bus/usb" ++ "/" ++ pad3 n = "" ∨
      ("/dev/bus/usb" ++ "/" ++ pad3 n).data.getLast? = some '/') := by
    simp only [not_or]
    constructor
    · intro hcontra
      have hdata : ("/dev/bus/usb" ++ "/" ++ pad3 n).data = [] := by
        rw [hcontra]
      simp only [strData_append] at hdata
      exact (pad3_spec n).1 (List.append_eq_nil.mp hdata).2
    · simp only [strData_append]
      rw [List.getLast?_append_of_ne_nil _ (pad3_spec n).1, hl1]
      simp only [Option.some.injEq]
      exact digit_ne_slash hld1
  have step2 : joinPath ("/dev/bus/usb" ++ "/" ++ pad3 n) (pad3 m) =
      ("/dev/bus/usb" ++ "/" ++ pad3 n) ++ "/" ++ pad3 m := by
    rw [joinPath, if_neg hnh2, if_neg hne2]
  rw [UsbResetter.devicePathOf, step1, step2]
  apply strExt
  simp only [strData_append]
  simp

end Helpers

section MoreHelpers

/-- pad3 always yields at least three characters. -/
theorem pad3_length_ge (n : Nat) : 3 ≤ (pad3 n).length := by
  have h : (pad3 n).data =
      List.replicate (3 - (decRepr n).length) '0' ++ (decRepr n).data := by
    simp [pad3, strData_append]
  have hlen : (pad3 n).length =
      (3 - (decRepr n).length) + (decRepr n).length := by
    show (pad3 n).data.length = _
    rw [h]
    simp [List.length_append]
  omega

set_option maxRecDepth 4000 in
/-- pad3 yields exactly three characters for values below one thousand. -/
theorem pad3_length_small : ∀ n : Nat, n < 1000 → (pad3 n).length = 3 := by
  decide

/-- A successful case-insensitive literal match pins down the first
character of the input. -/
theorem dropCi_cons_some {p : Char} {ps l r : List Char}
    (h : dropCi (p :: ps) l = some r) :
    ∃ c cs, l = c :: cs ∧ ciEq p c = true := by
  cases l with
  | nil => simp [dropCi] at h
  | cons c cs =>
    refine ⟨c, cs, rfl, ?_⟩
    by_contra hne
    rw [dropCi, if_neg hne] at h
    exact Option.noConfusion h

/-- A failed case-insensitive head comparison makes the whole literal
match fail. -/
theorem dropCi_cons_none {p : Char} {ps : List Char} {c : Char} {cs : List Char}
    (h : ciEq p c = false) : dropCi (p :: ps) (c :: cs) = none := by
  rw [dropCi, if_neg (by simp [h])]

/-- The head characters demanded by the four patterns are mutually
exclusive, so a line matching the `P:` pattern matches none of the other
three. -/
theorem matchVendorProd_excl {l : String} {x : String × String}
    (h : matchVendorProd l = some x) :
    matchT l = none ∧ matchManufacturer l = none ∧ matchProduct l = none := by
  have hp : ∃ c cs, l.data = c :: cs ∧ ciEq 'P' c = true := by
    rw [matchVendorProd] at h
    have hpd : ("P:" : String).data = ['P', ':'] := by decide
    rw [hpd] at h
    cases hdc : dropCi ['P', ':'] l.data with
    | none => rw [hdc] at h; exact Option.noConfusion h
    | some r => exact dropCi_cons_some hdc
  obtain ⟨c, cs, hl, hc⟩ := hp
  have hcl : c.toLower = 'p' := by
    have := eq_of_beq hc
    simpa using this.symm
  refine ⟨?_, ?_, ?_⟩
  · rw [matchT]
    have htd : ("T:" : String).data = ['T', ':'] := by decide
    rw [htd, hl, dropCi_cons_none (by simp [ciEq, hcl])]
    rfl
  · rw [matchManufacturer]
    have hsd : ("S:" : String).data = ['S', ':'] := by decide
    rw [hsd, hl, dropCi_cons_none (by simp [ciEq, hcl])]
    rfl
  · rw [matchProduct]
    have hsd : ("S:" : String).data = ['S', ':'] := by decide
    rw [hsd, hl, dropCi_cons_none (by simp [ciEq, hcl])]
    rfl

/-- A line matching the `T:` pattern matches none of the other three. -/
theorem matchT_excl {l : String} {x : Nat × Nat}
    (h : matchT l = some x) :
    matchManufacturer l = none ∧ matchProduct l = none ∧
      matchVendorProd l = none := by
  have hp : ∃ c cs, l.data = c :: cs ∧ ciEq 'T' c = true := by
    rw [matchT] at h
    have htd : ("T:" : String).data = ['T', ':'] := by decide
    rw [htd] at h
    cases hdc : dropCi ['T', ':'] l.data with
    | none => rw [hdc] at h; exact Option.noConfusion h
    | some r => exact dropCi_cons_some hdc
  obtain ⟨c, cs, hl, hc⟩ := hp
  have hcl : c.toLower = 't' := by
    have := eq_of_beq hc
    simpa using this.symm
  refine ⟨?_, ?_, ?_⟩
  · rw [matchManufacturer]
    have hsd : ("S:" : String).data = ['S', ':'] := by decide
    rw [hsd, hl, dropCi_cons_none (by simp [ciEq, hcl])]
    rfl
  · rw [matchProduct]
    have hsd : ("S:" : String).data = ['S', ':'] := by decide
    rw [hsd, hl, dropCi_cons_none (by simp [ciEq, hcl])]
    rfl
  · rw [matchVendorProd]
    have hpd : ("P:" : String).data = ['P', ':'] := by decide
    rw [hpd, hl, dropCi_cons_none (by simp [ciEq, hcl])]
    rfl

end MoreHelpers

namespace UsbResetter

/-- A line without a `T:` header match leaves the first block inert. -/
theorem stepT_none {line : String} (s : ParseState) (h : matchT line = none) :
    stepT s line = s := by
  simp [stepT, h]

/-- The first header seen: the accumulator is reset and bus and dev are
assigned, with no record emitted. -/
theorem stepT_some_first {line : String} {b d : Nat} (s : ParseState)
    (h : matchT line = some (b, d)) (hf : s.first_device = true) :
    stepT s line =
      { s with first_device := false, manufacturer := none, product := none,
               found_vendor_id := none, found_product_id := none,
               bus := some (pad3 b), dev := some (pad3 d) } := by
  simp [stepT, h, hf]

/-- A later header: the pending record is emitted from the current
accumulator values (which are not reset) and bus and dev are assigned. -/
theorem stepT_some_rest {line : String} {b d : Nat} (s : ParseState)
    (h : matchT line = some (b, d)) (hf : s.first_device = false) :
    stepT s line =
      { s with found_devices := s.found_devices ++ [mkDevice s],
               bus := some (pad3 b), dev := some (pad3 d) } := by
  simp [stepT, h, hf, mkDevice]

/-- A line without a manufacturer match leaves the second block inert. -/
theorem stepManufacturer_none {line : String} (s : ParseState)
    (h : matchManufacturer line = none) : stepManufacturer s line = s := by
  simp [stepManufacturer, h]

/-- A manufacturer line updates only the manufacturer field. -/
theorem stepManufacturer_some {line : String} {m : String} (s : ParseState)
    (h : matchManufacturer line = some m) :
    stepManufacturer s line = { s with manufacturer := some m } := by
  simp [stepManufacturer, h]

/-- A line without a product match leaves the third block inert. -/
theorem stepProduct_none {line : String} (s : ParseState)
    (h : matchProduct line = none) : stepProduct s line = s := by
  simp [stepProduct, h]

/-- A product line updates only the product field. -/
theorem stepProduct_some {line : String} {m : String} (s : ParseState)
    (h : matchProduct line = some m) :
    stepProduct s line = { s with product := some m } := by
  simp [stepProduct, h]

/-- A line without a vendor/product match leaves the fourth block inert. -/
theorem stepVendorProd_none {w : World} {v p : Option String} {line : String}
    (s : ParseState) (h : matchVendorProd line = none) :
    stepVendorProd w v p s line = .ok s := by
  simp [stepVendorProd, h]

/-- A vendor/product line with bus and dev assigned: the ids are stored as
captured, the path is derived from the current bus and dev, and the path
list grows exactly when the filter matches and the path exists; when the
filter matches but the path is absent a diagnostic naming bus and dev is
printed instead. -/
theorem stepVendorProd_some {w : World} {v p : Option String} {line : String}
    {a b bs ds : String} (s : ParseState)
    (h : matchVendorProd line = some (a, b))
    (hb : s.bus = some bs) (hd : s.dev = some ds) :
    stepVendorProd w v p s line =
      .ok (if v = some a ∧ p = some b then
             (if w.path_exists (devicePathOf bs ds) then
                { s with found_vendor_id := some a, found_product_id := some b,
                         device_path := some (devicePathOf bs ds),
                         device_paths := s.device_paths ++ [devicePathOf bs ds] }
              else
                { s with found_vendor_id := some a, found_product_id := some b,
                         device_path := some (devicePathOf bs ds),
                         printed := s.printed ++ [pathMissingMsg bs ds] })
           else
             { s with found_vendor_id := some a, found_product_id := some b,
                      device_path := some (devicePathOf bs ds) }) := by
  simp only [stepVendorProd, h, hb, hd]
  by_cases hm : v = some a ∧ p = some b <;>
    by_cases he : w.path_exists (devicePathOf bs ds) = true <;>
      simp [hm, he]

/-- A vendor/product line before any header: reading the unassigned bus
raises UnboundLocalError. -/
theorem stepVendorProd_unbound {w : World} {v p : Option String} {line : String}
    {a b : String} (s : ParseState)
    (h : matchVendorProd line = some (a, b)) (hb : s.bus = none) :
    stepVendorProd w v p s line = .error (.unboundLocal "bus") := by
  rw [stepVendorProd, h, hb]

/-- On a vendor/product line the first three blocks are inert, so the
whole loop iteration is the fourth block. -/
theorem processLine_P {w : World} {v p : Option String} {line : String}
    {x : String × String} (s : ParseState) (h : matchVendorProd line = some x) :
    processLine w v p s line = stepVendorProd w v p s line := by
  obtain ⟨ht, hm, hpr⟩ := matchVendorProd_excl h
  rw [processLine, stepT_none s ht, stepManufacturer_none s hm, stepProduct_none s hpr]

/-- On a line with no vendor/product match the loop iteration cannot raise
and is the composition of the first three blocks. -/
theorem processLine_noP {w : World} {v p : Option String} {line : String}
    (s : ParseState) (h : matchVendorProd line = none) :
    processLine w v p s line =
      .ok (stepProduct (stepManufacturer (stepT s line) line) line) := by
  rw [processLine, stepVendorProd_none _ h]

/-- On a `T:` header line the whole loop iteration is the first block. -/
theorem processLine_T {w : World} {v p : Option String} {line : String}
    {x : Nat × Nat} (s : ParseState) (h : matchT line = some x) :
    processLine w v p s line = .ok (stepT s line) := by
  obtain ⟨hm, hpr, hvp⟩ := matchT_excl h
  rw [processLine_noP s hvp, stepManufacturer_none _ hm, stepProduct_none _ hpr]

end UsbResetter

namespace UsbResetter

/-- The manufacturer block can only rewrite the manufacturer field. -/
theorem stepManufacturer_shape (s : ParseState) (line : String) :
    ∃ m, stepManufacturer s line = { s with manufacturer := m } := by
  cases h : matchManufacturer line with
  | none => exact ⟨s.manufacturer, by simp [stepManufacturer, h]⟩
  | some m => exact ⟨some m, by simp [stepManufacturer, h]⟩

/-- The product block can only rewrite the product field. -/
theorem stepProduct_shape (s : ParseState) (line : String) :
    ∃ m, stepProduct s line = { s with product := m } := by
  cases h : matchProduct line with
  | none => exact ⟨s.product, by simp [stepProduct, h]⟩
  | some m => exact ⟨some m, by simp [stepProduct, h]⟩

/-- stepVendorProd with an assigned bus but unassigned dev also raises. -/
theorem stepVendorProd_unbound2 {w : World} {v p : Option String} {line : String}
    {x : String × String} (s : ParseState)
    (h : matchVendorProd line = some x) (hd : s.dev = none) :
    ∃ e, stepVendorProd w v p s line = .error e := by
  cases hb : s.bus with
  | none => exact ⟨.unboundLocal "bus", by obtain ⟨a, b⟩ := x; exact stepVendorProd_unbound s h hb⟩
  | some bs => exact ⟨.unboundLocal "bus", by obtain ⟨a, b⟩ := x; simp [stepVendorProd, h, hb, hd]⟩

/-- Every successful loop iteration is one of four shapes: a header that
emits the pending record, the very first header, an inert or
string-descriptor line, or a vendor/product line that stores the ids and
the derived path and possibly appends an existing path to the output. -/
theorem processLine_cases {w : World} {v p : Option String} {s : ParseState}
    {line : String} {s' : ParseState}
    (h : processLine w v p s line = .ok s') :
    (∃ n m, matchT line = some (n, m) ∧ s.first_device = false ∧
      s'.device_paths = s.device_paths ∧
      s'.found_devices = s.found_devices ++ [mkDevice s] ∧
      s'.device_path = s.device_path ∧
      s'.bus = some (pad3 n) ∧ s'.dev = some (pad3 m)) ∨
    (∃ n m, matchT line = some (n, m) ∧ s.first_device = true ∧
      s'.device_paths = s.device_paths ∧
      s'.found_devices = s.found_devices ∧
      s'.device_path = s.device_path ∧
      s'.bus = some (pad3 n) ∧ s'.dev = some (pad3 m)) ∨
    (s'.device_paths = s.device_paths ∧
      s'.found_devices = s.found_devices ∧
      s'.device_path = s.device_path ∧
      s'.bus = s.bus ∧ s'.dev = s.dev) ∨
    (∃ a b bs ds, matchVendorProd line = some (a, b) ∧
      s.bus = some bs ∧ s.dev = some ds ∧
      s'.bus = s.bus ∧ s'.dev = s.dev ∧
      s'.found_devices = s.found_devices ∧
      s'.device_path = some (devicePathOf bs ds) ∧
      (s'.device_paths = s.device_paths ∨
        (s'.device_paths = s.device_paths ++ [devicePathOf bs ds] ∧
          w.path_exists (devicePathOf bs ds) = true ∧
          v = some a ∧ p = some b))) := by
  cases hvp : matchVendorProd line with
  | some x =>
    obtain ⟨a, b⟩ := x
    rw [processLine_P s hvp] at h
    cases hb : s.bus with
    | none =>
      rw [stepVendorProd_unbound s hvp hb] at h
      exact Except.noConfusion h
    | some bs =>
      cases hd : s.dev with
      | none =>
        obtain ⟨e, he⟩ := stepVendorProd_unbound2 s hvp hd
        rw [he] at h
        exact Except.noConfusion h
      | some ds =>
        rw [stepVendorProd_some s hvp hb hd] at h
        have hs' := (Except.ok.injEq _ _).mp h
        refine Or.inr (Or.inr (Or.inr ⟨a, b, bs, ds, rfl, rfl, rfl, ?_⟩))
        by_cases hm : v = some a ∧ p = some b
        · by_cases hex : w.path_exists (devicePathOf bs ds) = true
          · rw [if_pos hm, if_pos hex] at hs'
            subst hs'
            exact ⟨hb, hd, rfl, rfl, Or.inr ⟨rfl, hex, hm.1, hm.2⟩⟩
          · rw [if_pos hm, if_neg hex] at hs'
            subst hs'
            exact ⟨hb, hd, rfl, rfl, Or.inl rfl⟩
        · rw [if_neg hm] at hs'
          subst hs'
          exact ⟨hb, hd, rfl, rfl, Or.inl rfl⟩
  | none =>
    rw [processLine_noP s hvp] at h
    have hs' := (Except.ok.injEq _ _).mp h
    obtain ⟨m1, hm1⟩ := stepManufacturer_shape (stepT s line) line
    obtain ⟨m2, hm2⟩ := stepProduct_shape (stepManufacturer (stepT s line) line) line
    cases hT : matchT line with
    | none =>
      rw [stepT_none s hT] at hm1 hm2 hs'
      rw [hm1] at hm2 hs'
      rw [hm2] at hs'
      subst hs'
      exact Or.inr (Or.inr (Or.inl (by simp)))
    | some nm =>
      obtain ⟨n, m⟩ := nm
      cases hf : s.first_device with
      | false =>
        rw [stepT_some_rest s hT hf] at hm1 hm2 hs'
        rw [hm1] at hm2 hs'
        rw [hm2] at hs'
        subst hs'
        exact Or.inl ⟨n, m, rfl, rfl, by simp, by simp, by simp, by simp, by simp⟩
      | true =>
        rw [stepT_some_first s hT hf] at hm1 hm2 hs'
        rw [hm1] at hm2 hs'
        rw [hm2] at hs'
        subst hs'
        exact Or.inr (Or.inl ⟨n, m, rfl, rfl, by simp, by simp, by simp, by simp, by simp⟩)

/-- Generic preservation principle for the read loop: any property closed
under single successful iterations on lines of `L` holds after processing
any sub-list of `L`. -/
theorem processLines_rec {w : World} {v p : Option String} (L : List String)
    (P : ParseState → Prop)
    (hstep : ∀ s line s', line ∈ L → processLine w v p s line = .ok s' → P s → P s') :
    ∀ (ls : List String), (∀ l ∈ ls, l ∈ L) → ∀ (s s' : ParseState), P s →
      processLines w v p s ls = .ok s' → P s' := by
  intro ls
  induction ls with
  | nil =>
    intro _ s s' hP h
    rw [processLines] at h
    rw [← (Except.ok.injEq _ _).mp h]
    exact hP
  | cons l ls ih =>
    intro hmem s s' hP h
    rw [processLines] at h
    cases hpl : processLine w v p s l with
    | error e =>
      rw [hpl] at h
      exact Except.noConfusion h
    | ok s1 =>
      rw [hpl] at h
      exact ih (fun x hx => hmem x (List.mem_cons_of_mem l hx)) s1 s'
        (hstep s l s1 (hmem l (List.mem_cons_self l ls)) hpl hP) h

/-- The end-of-stream flush either keeps the state or appends the pending
record built from the current accumulator. -/
theorem eofFlush_cases {s s' : ParseState} (h : eofFlush s = .ok s') :
    s' = s ∨ s' = { s with found_devices := s.found_devices ++ [mkDevice s] } := by
  rw [eofFlush] at h
  split at h
  · exact Except.noConfusion h
  · split at h
    · exact Or.inl ((Except.ok.injEq _ _).mp h).symm
    · split at h
      · exact Except.noConfusion h
      · split at h
        · exact Or.inl ((Except.ok.injEq _ _).mp h).symm
        · exact Or.inr ((Except.ok.injEq _ _).mp h).symm

/-- The list_only printing step touches only the printed text. -/
theorem listPrint_proj (lo : Bool) (s : ParseState) :
    (listPrint lo s).found_devices = s.found_devices ∧
      (listPrint lo s).device_paths = s.device_paths := by
  cases lo <;> simp [listPrint]

/-- Decomposition of a successful get_usb_devices_paths run into its
phases. -/
theorem get_usb_devices_paths_phases {w : World} {v p : Option String}
    {lo : Bool} {r : ParseState}
    (h : get_usb_devices_paths w v p lo = .ok r) :
    w.debug_isfile = true ∧
    ∃ s s2, processLines w v p initState w.debugLines = .ok s ∧
      eofFlush s = .ok s2 ∧ r = listPrint lo s2 := by
  rw [get_usb_devices_paths] at h
  by_cases hb : w.debug_isfile = false
  · rw [if_pos hb] at h
    exact Except.noConfusion h
  · rw [if_neg hb] at h
    refine ⟨by revert hb; cases w.debug_isfile <;> simp, ?_⟩
    split at h
    · exact Except.noConfusion h
    · rename_i s hpl
      split at h
      · exact Except.noConfusion h
      · rename_i s2 hef
        exact ⟨s, s2, hpl, hef, ((Except.ok.injEq _ _).mp h).symm⟩

end UsbResetter

/-- A device_path value is `None` or derives from some header line of
the stream `L`: the fixed prefix followed by the zero-padded bus and
device numbers of that header. -/
def pathFromHeader (L : List String) (op : Option String) : Prop :=
  op = none ∨ ∃ n m l, l ∈ L ∧ matchT l = some (n, m) ∧
    op = some ("/dev/bus/usb/" ++ pad3 n ++ "/" ++ pad3 m)

/-- Invariant of the read loop: bus and dev are unassigned or come from a
header of the stream, and every path stored so far derives from a
header. -/
def stateFromHeaders (L : List String) (s : ParseState) : Prop :=
  ((s.bus = none ∧ s.dev = none) ∨ ∃ n m l, l ∈ L ∧ matchT l = some (n, m) ∧
    s.bus = some (pad3 n) ∧ s.dev = some (pad3 m)) ∧
  pathFromHeader L s.device_path ∧
  ∀ rec ∈ s.found_devices, pathFromHeader L rec.device_path

/-- Every successful loop iteration on a line of the stream preserves the
header-derivation invariant. -/
theorem stateFromHeaders_preserved (w : World) (v p : Option String) :
    ∀ (s : ParseState) (line : String) (s' : ParseState), line ∈ w.debugLines →
      UsbResetter.processLine w v p s line = .ok s' →
      stateFromHeaders w.debugLines s → stateFromHeaders w.debugLines s' := by
  intro s line s' hline h hs
  obtain ⟨hbusOk, hpathOk, hrecs⟩ := hs
  rcases UsbResetter.processLine_cases h with
    ⟨n, m, hT, hf, hdp, hfd, hdevp, hbus, hdev⟩ |
    ⟨n, m, hT, hf, hdp, hfd, hdevp, hbus, hdev⟩ |
    ⟨hdp, hfd, hdevp, hbus, hdev⟩ |
    ⟨a, b, bs, ds, hvp, hsb, hsd, hbus, hdev, hfd, hdevp, hpaths⟩
  · refine ⟨Or.inr ⟨n, m, line, hline, hT, hbus, hdev⟩, ?_, ?_⟩
    · rw [hdevp]
      exact hpathOk
    · rw [hfd]
      intro rec hrec
      rcases List.mem_append.mp hrec with hm | hm
      · exact hrecs rec hm
      · rw [List.mem_singleton] at hm
        subst hm
        exact hpathOk
  · refine ⟨Or.inr ⟨n, m, line, hline, hT, hbus, hdev⟩, ?_, ?_⟩
    · rw [hdevp]
      exact hpathOk
    · rw [hfd]
      exact hrecs
  · refine ⟨?_, ?_, ?_⟩
    · rw [hbus, hdev]
      exact hbusOk
    · rw [hdevp]
      exact hpathOk
    · rw [hfd]
      exact hrecs
  · rcases hbusOk with ⟨hbn, hdn⟩ | ⟨n, m, l, hl, hT, hbn, hdn⟩
    · rw [hbn] at hsb
      exact Option.noConfusion hsb
    · have hbs : bs = pad3 n := (Option.some.injEq _ _).mp (hsb.symm.trans hbn)
      have hds : ds = pad3 m := (Option.some.injEq _ _).mp (hsd.symm.trans hdn)
      refine ⟨Or.inr ⟨n, m, l, hl, hT, hbus.trans hbn, hdev.trans hdn⟩, ?_, ?_⟩
      · rw [pathFromHeader, hdevp, hbs, hds]
        exact Or.inr ⟨n, m, l, hl, hT, by rw [devicePathOf_pad3]⟩
      · rw [hfd]
        exact hrecs

/-- After a successful run, every record's path is absent or derives from
some header line of the stream. -/
theorem found_devices_paths_from_headers {w : World} {v p : Option String}
    {lo : Bool} {r : ParseState}
    (h : UsbResetter.get_usb_devices_paths w v p lo = .ok r) :
    ∀ rec ∈ r.found_devices, pathFromHeader w.debugLines rec.device_path := by
  obtain ⟨hfile, s, s2, hpl, hef, hr⟩ := UsbResetter.get_usb_devices_paths_phases h
  have hinit : stateFromHeaders w.debugLines initState := by
    refine ⟨Or.inl ⟨rfl, rfl⟩, Or.inl rfl, ?_⟩
    intro rec hrec
    simp [initState] at hrec
  have hs := UsbResetter.processLines_rec w.debugLines (stateFromHeaders w.debugLines)
    (stateFromHeaders_preserved w v p) w.debugLines (fun l hl => hl) initState s hinit hpl
  have hs2 : ∀ rec ∈ s2.found_devices, pathFromHeader w.debugLines rec.device_path := by
    rcases UsbResetter.eofFlush_cases hef with he | he
    · subst he
      exact hs.2.2
    · subst he
      intro rec hrec
      rcases List.mem_append.mp hrec with hm | hm
      · exact hs.2.2 rec hm
      · rw [List.mem_singleton] at hm
        subst hm
        exact hs.2.1
  rw [hr]
  intro rec hrec
  rw [(UsbResetter.listPrint_proj lo s2).1] at hrec
  exact hs2 rec hrec

/-- If no line of the stream carries vendor/product ids exactly equal to
the caller's filter, the returned path list is empty. -/
theorem device_paths_filter_empty {w : World} {v p : Option String}
    (hno : ∀ l ∈ w.debugLines, ∀ a b, matchVendorProd l = some (a, b) →
      ¬(v = some a ∧ p = some b)) :
    ∀ {lo : Bool} {r : ParseState},
      UsbResetter.get_usb_devices_paths w v p lo = .ok r → r.device_paths = [] := by
  intro lo r h
  obtain ⟨hfile, s, s2, hpl, hef, hr⟩ := UsbResetter.get_usb_devices_paths_phases h
  have hstep : ∀ (s : ParseState) (line : String) (s' : ParseState),
      line ∈ w.debugLines → UsbResetter.processLine w v p s line = .ok s' →
      s.device_paths = [] → s'.device_paths = [] := by
    intro s line s' hline hps hP
    rcases UsbResetter.processLine_cases hps with
      ⟨n, m, _, _, hdp, _⟩ | ⟨n, m, _, _, hdp, _⟩ | ⟨hdp, _⟩ |
      ⟨a, b, bs, ds, hvp, _, _, _, _, _, _, hpaths⟩
    · rw [hdp]; exact hP
    · rw [hdp]; exact hP
    · rw [hdp]; exact hP
    · rcases hpaths with hdp | ⟨_, _, hv, hp2⟩
      · rw [hdp]; exact hP
      · exact absurd ⟨hv, hp2⟩ (hno line hline a b hvp)
  have hs : s.device_paths = [] :=
    UsbResetter.processLines_rec w.debugLines (fun st => st.device_paths = [])
      hstep w.debugLines (fun l hl => hl) initState s rfl hpl
  have hs2 : s2.device_paths = [] := by
    rcases UsbResetter.eofFlush_cases hef with he | he
    · rw [he]; exact hs
    · rw [he]; exact hs
  rw [hr, (UsbResetter.listPrint_proj lo s2).2]
  exact hs2

/-- Every path in the returned list was seen to exist by the world's
os.path.exists at the moment its vendor/product line was processed. -/
theorem device_paths_all_exist {w : World} {v p : Option String}
    {lo : Bool} {r : ParseState}
    (h : UsbResetter.get_usb_devices_paths w v p lo = .ok r) :
    ∀ q ∈ r.device_paths, w.path_exists q = true := by
  obtain ⟨hfile, s, s2, hpl, hef, hr⟩ := UsbResetter.get_usb_devices_paths_phases h
  have hstep : ∀ (s : ParseState) (line : String) (s' : ParseState),
      line ∈ w.debugLines → UsbResetter.processLine w v p s line = .ok s' →
      (∀ q ∈ s.device_paths, w.path_exists q = true) →
      ∀ q ∈ s'.device_paths, w.path_exists q = true := by
    intro s line s' hline hps hP
    rcases UsbResetter.processLine_cases hps with
      ⟨n, m, _, _, hdp, _⟩ | ⟨n, m, _, _, hdp, _⟩ | ⟨hdp, _⟩ |
      ⟨a, b, bs, ds, hvp, _, _, _, _, _, _, hpaths⟩
    · rw [hdp]; exact hP
    · rw [hdp]; exact hP
    · rw [hdp]; exact hP
    · rcases hpaths with hdp | ⟨hdp, hex, _⟩
      · rw [hdp]; exact hP
      · rw [hdp]
        intro q hq
        rcases List.mem_append.mp hq with hm | hm
        · exact hP q hm
        · rw [List.mem_singleton] at hm
          rw [hm]
          exact hex
  have hs : ∀ q ∈ s.device_paths, w.path_exists q = true :=
    UsbResetter.processLines_rec w.debugLines
      (fun st => ∀ q ∈ st.device_paths, w.path_exists q = true)
      hstep w.debugLines (fun l hl => hl) initState s (by intro q hq; simp [initState] at hq) hpl
  have hs2 : ∀ q ∈ s2.device_paths, w.path_exists q = true := by
    rcases UsbResetter.eofFlush_cases hef with he | he
    · rw [he]; exact hs
    · rw [he]; exact hs
  rw [hr]
  intro q hq
  rw [(UsbResetter.listPrint_proj lo s2).2] at hq
  exact hs2 q hq

/-- With exactly one filter supplied, one glob entry never contributes a
hub: the matching conjunct compares the absent filter with a present
string and the unfiltered disjunct needs both filters falsy. -/
theorem hub_entry_single_filter {w : World} {s : String} (hs : s ≠ "")
    (entry : String) :
    (UsbResetter.hub_entry w (some s) none entry).1 = [] ∧
    (UsbResetter.hub_entry w none (some s) entry).1 = [] := by
  constructor
  · simp only [UsbResetter.hub_entry]
    split
    · rfl
    · split
      · rfl
      · rw [if_neg]
        · rintro (⟨h1, h2⟩ | ⟨h3, h4⟩)
          · exact Option.noConfusion h2
          · rw [pyTruthy] at h3
            simp at h3
            exact hs h3
  · simp only [UsbResetter.hub_entry]
    split
    · rfl
    · split
      · rfl
      · rw [if_neg]
        · rintro (⟨h1, h2⟩ | ⟨h3, h4⟩)
          · exact Option.noConfusion h1
          · rw [pyTruthy] at h4
            simp at h4
            exact hs h4

/-- The single-filter emptiness extends over any entry list. -/
theorem get_usb_hubs_loop_single {w : World} {s : String} (hs : s ≠ "") :
    ∀ entries : List String,
      (UsbResetter.get_usb_hubs_loop w (some s) none entries).1 = [] ∧
      (UsbResetter.get_usb_hubs_loop w none (some s) entries).1 = [] := by
  intro entries
  induction entries with
  | nil => exact ⟨rfl, rfl⟩
  | cons e rest ih =>
    constructor
    · simp only [UsbResetter.get_usb_hubs_loop]
      rw [(hub_entry_single_filter hs e).1, ih.1]
      rfl
    · simp only [UsbResetter.get_usb_hubs_loop]
      rw [(hub_entry_single_filter hs e).2, ih.2]
      rfl

/-- A base world: debugfs present with an empty stream, no paths exist,
nothing globs, reads fail, control-file writes succeed, os.open fails,
ioctls fail. -/
def wBase : World :=
  { debug_isfile := true
    debugLines := []
    path_exists := fun _ => false
    glob_usb_devices := []
    glob_controllers := []
    readFile := fun _ => none
    writeOk := fun _ _ => true
    openFd := fun _ => none
    ioctlOk := fun _ _ => false
    cwd := "/root" }

/-- A stream with lines but not a single header. -/
def wNoHeaders : World := { wBase with debugLines := ["S: Manufacturer=Acme"] }

/-- A well-formed two-device stream. -/
def wTwoHeaders : World :=
  { wBase with debugLines :=
      ["T: Bus=1 Dev#= 2", "P: Vendor=ABCD ProdID=1234",
       "T: Bus=1 Dev#= 3", "P: Vendor=ABCD ProdID=5678"] }

/-- A first device with descriptor lines followed by a bare second
header. -/
def wInherit : World :=
  { wBase with debugLines :=
      ["T: Bus=1 Dev#= 2", "S: Manufacturer=Acme",
       "P: Vendor=abcd ProdID=1234", "T: Bus=1 Dev#= 3"] }

/-- A device block without a vendor/product line, followed by one whose
bus number has four digits. -/
def wStale : World :=
  { wBase with debugLines :=
      ["T: Bus=1 Dev#= 2", "T: Bus=1234 Dev#= 5", "P: Vendor=abcd ProdID=9999"] }

/-- A stream whose vendor/product line is lower-case, with every device
path present. -/
def wLower : World :=
  { wBase with
      debugLines := ["T: Bus=1 Dev#= 2", "P: Vendor=abcd ProdID=1234"]
      path_exists := fun _ => true }

/-- The kernel debug path is absent. -/
def wNoFile : World := { wBase with debug_isfile := false }

/-- os.open succeeds with descriptor 3 but the ioctl fails. -/
def wOpenOk : World := { wBase with openFd := fun _ => some 3 }

/-- os.open succeeds with descriptor 3 and the ioctl succeeds. -/
def wOpenOkIoctlOk : World :=
  { wBase with openFd := fun _ => some 3, ioctlOk := fun _ _ => true }

/-- Every control-file write fails. -/
def wWriteFail : World := { wBase with writeOk := fun _ _ => false }

/-- One hub whose idVendor and idProduct files read 8086 and 0001. -/
def wHubs : World :=
  { wBase with
      glob_usb_devices := ["/sys/bus/usb/devices/1-1/idVendor"]
      readFile := fun q =>
        if q = "/sys/bus/usb/devices/1-1/idVendor" then some "8086\n"
        else if q = "/sys/bus/usb/devices/1-1/idProduct" then some "0001\n"
        else none }

/-- The records a run accumulated (empty when it raised). -/
def recordsOf : Except PyErr ParseState → List Device
  | .ok s => s.found_devices
  | .error _ => []

/-- The device paths a run returned (empty when it raised). -/
def pathsOf : Except PyErr ParseState → List String
  | .ok s => s.device_paths
  | .error _ => []

/-- The number of records a run accumulated. -/
def recordCountOf (r : Except PyErr ParseState) : Nat :=
  (recordsOf r).length

/-- The vendor ids of the accumulated records. -/
def vendorIdsOf (r : Except PyErr ParseState) : List (Option String) :=
  (recordsOf r).map (fun d => d.vendor_id)

/-- The device_path fields of the accumulated records. -/
def devPathsOf (r : Except PyErr ParseState) : List (Option String) :=
  (recordsOf r).map (fun d => d.device_path)

deriving instance DecidableEq for Except

/-- State after the parser has seen one header, bus 001 dev 002, still
within the first block. -/
def c3t : ParseState :=
  { initState with first_device := false, bus := some "001", dev := some "002" }

/-- State whose bus and dev locals hold 001 and 002. -/
def c10s : ParseState :=
  { initState with bus := some "001", dev := some "002" }

/-- Final state of parsing the lower-case stream with a non-matching
filter. -/
def c7wr : ParseState :=
  { first_device := false
    manufacturer := none
    product := none
    found_vendor_id := some "abcd"
    found_product_id := some "1234"
    device_path := some "/dev/bus/usb/001/002"
    bus := some "001"
    dev := some "002"
    found_devices := [{ vendor_id := some "abcd", product_id := some "1234",
                        device_path := some "/dev/bus/usb/001/002",
                        manufacturer := none, product := none }]
    device_paths := []
    printed := [] }

/-- The same final state when the filter matches the as-written ids. -/
def c10r : ParseState :=
  { c7wr with device_paths := ["/dev/bus/usb/001/002"] }

/-- State after one vendor/product line processed from c10s with no
filter supplied. -/
def c7ws : ParseState :=
  { c10s with found_vendor_id := some "abcd", found_product_id := some "1234",
              device_path := some "/dev/bus/usb/001/002" }

/-- Claim C1: a stream with N headers is claimed to yield exactly N
records for every N, zero included.  The code does flush the final
record, and a two-header stream yields two records; but with zero
headers the final `if bus and dev:` reads the never-assigned local bus,
raising UnboundLocalError instead of producing zero records — both on the
empty stream and on a header-free stream. -/
theorem claim_C1 :
    UsbResetter.get_usb_devices_paths wBase none none false =
      .error (PyErr.unboundLocal "bus") ∧
    UsbResetter.get_usb_devices_paths wNoHeaders none none false =
      .error (PyErr.unboundLocal "bus") ∧
    recordCountOf (UsbResetter.get_usb_devices_paths wTwoHeaders none none false) = 2 := by
  decide

/-- Claim C2: the accumulator fields are claimed to be reset after each
emitted record.  The code resets them only in the first-header branch, so
the second record of this stream — whose block contains no descriptor or
vendor/product lines at all — inherits every field from the first device
instead of being empty. -/
theorem claim_C2 :
    recordsOf (UsbResetter.get_usb_devices_paths wInherit none none false) =
      [{ vendor_id := some "abcd", product_id := some "1234",
         device_path := some "/dev/bus/usb/001/002",
         manufacturer := some "Acme", product := none },
       { vendor_id := some "abcd", product_id := some "1234",
         device_path := some "/dev/bus/usb/001/002",
         manufacturer := some "Acme", product := none }] := by
  decide

/-- Claim C3, counterexample: the first record's block has no
vendor/product line, so its device_path is None rather than
/dev/bus/usb/001/002 derived from its own header; and the second record's
bus number 1234 yields a four-character component, not exactly three
digits. -/
theorem claim_C3_counterexample :
    devPathsOf (UsbResetter.get_usb_devices_paths wStale none none false) =
      [none, some "/dev/bus/usb/1234/005"] := by
  decide

/-- Claim C3, amended: device_path is never supplied independently of the
parser's bus/dev state.  A header line sets bus and dev to the zero-padded
numbers and leaves device_path alone; a vendor/product line sets
device_path to /dev/bus/usb/{bus}/{dev} from the current bus and dev;
os.path.join on pad3 components is plain slash concatenation; pad3 pads
to at least three characters, exactly three below 1000; other lines
change neither; and every record of a successful run carries None or a
path derived from some header of the stream. -/
theorem claim_C3_amended (w : World) (v p : Option String) :
    (∀ (s : ParseState) (line : String) (n m : Nat),
      matchT line = some (n, m) →
      ∀ s', UsbResetter.processLine w v p s line = .ok s' →
        s'.bus = some (pad3 n) ∧ s'.dev = some (pad3 m) ∧
        s'.device_path = s.device_path ∧
        (s.first_device = false →
          s'.found_devices = s.found_devices ++ [UsbResetter.mkDevice s])) ∧
    (∀ (s : ParseState) (line a b bs ds : String),
      matchVendorProd line = some (a, b) →
      s.bus = some bs → s.dev = some ds →
      ∀ s', UsbResetter.processLine w v p s line = .ok s' →
        s'.device_path = some (UsbResetter.devicePathOf bs ds)) ∧
    (∀ n m : Nat, UsbResetter.devicePathOf (pad3 n) (pad3 m) =
      "/dev/bus/usb/" ++ pad3 n ++ "/" ++ pad3 m) ∧
    (∀ n : Nat, 3 ≤ (pad3 n).length ∧ (n < 1000 → (pad3 n).length = 3)) ∧
    (∀ (s : ParseState) (line : String),
      matchT line = none → matchVendorProd line = none →
      ∀ s', UsbResetter.processLine w v p s line = .ok s' →
        s'.device_path = s.device_path ∧ s'.bus = s.bus ∧ s'.dev = s.dev ∧
        s'.found_devices = s.found_devices) ∧
    (∀ (lo : Bool) (r : ParseState),
      UsbResetter.get_usb_devices_paths w v p lo = .ok r →
      ∀ rec ∈ r.found_devices, rec.device_path = none ∨
        ∃ n m l, l ∈ w.debugLines ∧ matchT l = some (n, m) ∧
          rec.device_path = some ("/dev/bus/usb/" ++ pad3 n ++ "/" ++ pad3 m)) := by
  refine ⟨?_, ?_, ?_, ?_, ?_, ?_⟩
  · intro s line n m hT s' hps
    rw [UsbResetter.processLine_T s hT] at hps
    have hs' := (Except.ok.injEq _ _).mp hps
    cases hf : s.first_device with
    | true =>
      rw [UsbResetter.stepT_some_first s hT hf] at hs'
      subst hs'
      refine ⟨rfl, rfl, rfl, ?_⟩
      intro hff
      exact absurd hff (by decide)
    | false =>
      rw [UsbResetter.stepT_some_rest s hT hf] at hs'
      subst hs'
      exact ⟨rfl, rfl, rfl, fun _ => rfl⟩
  · intro s line a b bs ds hvp hb hd s' hps
    rw [UsbResetter.processLine_P s hvp,
      UsbResetter.stepVendorProd_some s hvp hb hd] at hps
    have hs' := (Except.ok.injEq _ _).mp hps
    subst hs'
    split_ifs <;> rfl
  · intro n m
    exact devicePathOf_pad3 n m
  · intro n
    exact ⟨pad3_length_ge n, fun h => pad3_length_small n h⟩
  · intro s line hT hvp s' hps
    rw [UsbResetter.processLine_noP s hvp] at hps
    have hs' := (Except.ok.injEq _ _).mp hps
    obtain ⟨m1, hm1⟩ := UsbResetter.stepManufacturer_shape (UsbResetter.stepT s line) line
    obtain ⟨m2, hm2⟩ :=
      UsbResetter.stepProduct_shape (UsbResetter.stepManufacturer (UsbResetter.stepT s line) line) line
    rw [UsbResetter.stepT_none s hT] at hm1 hm2 hs'
    rw [hm1] at hm2 hs'
    rw [hm2] at hs'
    subst hs'
    exact ⟨rfl, rfl, rfl, rfl⟩
  · intro lo r h rec hrec
    exact found_devices_paths_from_headers h rec hrec

/-- Witness for the amended claim C3 at concrete inputs: the padded
length law at 1, and the header step on the line T: Bus=1 Dev#= 2 from
the initial state assigns bus 001 and leaves device_path None. -/
theorem claim_C3_amended_witness :
    (pad3 1).length = 3 ∧ c3t.bus = some "001" ∧ c3t.device_path = none := by
  have h := claim_C3_amended wBase none none
  have h1 := h.1 initState "T: Bus=1 Dev#= 2" 1 2 (by decide) c3t (by decide)
  exact ⟨(h.2.2.2.1 1).2 (by decide), h1.1.trans (by decide), h1.2.2.1.trans rfl⟩

/-- Claim C4, counterexample: the historical script's
get_usb_devices_paths returns the empty path list when the kernel debug
path is absent, instead of raising. -/
theorem claim_C4_counterexample :
    UsbReset.get_usb_devices_paths wNoFile (some "8086") (some "0001") false =
      .ok initState ∧
    pathsOf (UsbReset.get_usb_devices_paths wNoFile (some "8086") (some "0001") false) = [] := by
  decide

/-- Claim C4, amended: the packaged parser raises OSError naming the
missing kernel debug path, for every combination of arguments, whenever
the path is absent. -/
theorem claim_C4_amended (w : World) (vendor_id product_id : Option String)
    (list_only : Bool) (h : w.debug_isfile = false) :
    UsbResetter.get_usb_devices_paths w vendor_id product_id list_only =
      .error (PyErr.osError ("Kernel path " ++ UsbResetter.kernel_usb_debug_path ++
        " not found. Please run this script as root")) := by
  rw [UsbResetter.get_usb_devices_paths, if_pos h]

/-- Witness for the amended claim C4 at two argument combinations. -/
theorem claim_C4_amended_witness :
    UsbResetter.get_usb_devices_paths wNoFile (some "8086") (some "0001") false =
      .error (PyErr.osError
        "Kernel path /sys/kernel/debug/usb/devices not found. Please run this script as root") ∧
    UsbResetter.get_usb_devices_paths wNoFile none none true =
      .error (PyErr.osError
        "Kernel path /sys/kernel/debug/usb/devices not found. Please run this script as root") := by
  constructor
  · exact (claim_C4_amended wNoFile (some "8086") (some "0001") false rfl).trans (by decide)
  · exact (claim_C4_amended wNoFile none none true rfl).trans (by decide)

/-- Claim C5: resetting one hub performs exactly the unbind write followed
by the bind write of the hub's basename into the resolved control
directory, in that order; and when the unbind write fails, no write at
all is recorded and the error escapes, so the bind write is never
attempted. -/
theorem claim_C5 (w : World) (hub : String) :
    (w.writeOk (joinPath (UsbResetter.unbind_path hub) "unbind") (pyBasename hub) = true →
     w.writeOk (joinPath (UsbResetter.unbind_path hub) "bind") (pyBasename hub) = true →
     UsbResetter.reset_usb_hubs w [hub] =
       ([Event.write (joinPath (UsbResetter.unbind_path hub) "unbind") (pyBasename hub),
         Event.write (joinPath (UsbResetter.unbind_path hub) "bind") (pyBasename hub)],
        none)) ∧
    (w.writeOk (joinPath (UsbResetter.unbind_path hub) "unbind") (pyBasename hub) = false →
     UsbResetter.reset_usb_hubs w [hub] =
       ([], some (PyErr.osError (joinPath (UsbResetter.unbind_path hub) "unbind")))) := by
  constructor
  · intro hu hb
    simp [UsbResetter.reset_usb_hubs, UsbResetter.hub_binder, hu, hb]
  · intro hu
    simp [UsbResetter.reset_usb_hubs, UsbResetter.hub_binder, hu]

/-- Witness for claim C5: a hub under the usb driver-control root, once
with both writes succeeding and once with the unbind write failing. -/
theorem claim_C5_witness :
    UsbResetter.reset_usb_hubs wBase ["/sys/bus/usb/drivers/usb/usb3"] =
      ([Event.write "/sys/bus/usb/drivers/usb/unbind" "usb3",
        Event.write "/sys/bus/usb/drivers/usb/bind" "usb3"], none) ∧
    UsbResetter.reset_usb_hubs wWriteFail ["/sys/bus/usb/drivers/usb/usb3"] =
      ([], some (PyErr.osError "/sys/bus/usb/drivers/usb/unbind")) := by
  constructor
  · exact ((claim_C5 wBase "/sys/bus/usb/drivers/usb/usb3").1
      (by decide) (by decide)).trans (by decide)
  · exact ((claim_C5 wWriteFail "/sys/bus/usb/drivers/usb/usb3").2
      (by decide)).trans (by decide)

/-- Claim C6: the handle is claimed to be closed exactly once on every
exit path, including when the open itself fails.  When the open succeeds
the model indeed closes descriptor 3 exactly once whether the ioctl
succeeds or fails; but when os.open fails, the finally block reads the
never-assigned local fd and the call raises UnboundLocalError with no
descriptor ever opened or closed. -/
theorem claim_C6 :
    UsbResetter.send_signal_usb_device wBase "/dev/bus/usb/001/002" "reset" =
      ([], .error (PyErr.unboundLocal "fd")) ∧
    UsbResetter.send_signal_usb_device wOpenOk "/dev/bus/usb/001/002" "reset" =
      ([FdEvent.opened 3, FdEvent.ioctl 3 UsbResetter.USBDEVFS_RESET, FdEvent.closed 3],
       .ok false) ∧
    UsbResetter.send_signal_usb_device wOpenOkIoctlOk "/dev/bus/usb/001/002" "reset" =
      ([FdEvent.opened 3, FdEvent.ioctl 3 UsbResetter.USBDEVFS_RESET, FdEvent.closed 3],
       .ok true) := by
  decide

/-- Claim C7, counterexample: the ids read from the stream are stored as
written, not upper-cased — the record of the lower-case stream carries
vendor id abcd; the upper-case filter ABCD:1234, which the claim says
matches after normalization, returns no path even though the path
exists, while the as-written filter abcd:1234 does match. -/
theorem claim_C7_counterexample :
    vendorIdsOf (UsbResetter.get_usb_devices_paths wLower (some "ABCD") (some "1234") false) =
      [some "abcd"] ∧
    pathsOf (UsbResetter.get_usb_devices_paths wLower (some "ABCD") (some "1234") false) = [] ∧
    pathsOf (UsbResetter.get_usb_devices_paths wLower (some "abcd") (some "1234") false) =
      ["/dev/bus/usb/001/002"] := by
  decide

/-- Claim C7, amended: vendor and product ids are stored exactly as they
appear in the stream (the pattern accepts either case, no normalization
is applied), filter matching is exact string equality on those as-written
values, and any filter that matches no line of the stream yields an
empty path list. -/
theorem claim_C7_amended (w : World) (v p : Option String) :
    (∀ (s : ParseState) (line a b bs ds : String) (s' : ParseState),
      matchVendorProd line = some (a, b) → s.bus = some bs → s.dev = some ds →
      UsbResetter.processLine w v p s line = .ok s' →
      s'.found_vendor_id = some a ∧ s'.found_product_id = some b) ∧
    (∀ (lo : Bool) (r : ParseState),
      UsbResetter.get_usb_devices_paths w v p lo = .ok r →
      (∀ l ∈ w.debugLines, ∀ a b, matchVendorProd l = some (a, b) →
        ¬(v = some a ∧ p = some b)) →
      r.device_paths = []) := by
  constructor
  · intro s line a b bs ds s' hvp hb hd hps
    rw [UsbResetter.processLine_P s hvp,
      UsbResetter.stepVendorProd_some s hvp hb hd] at hps
    have hs' := (Except.ok.injEq _ _).mp hps
    subst hs'
    split_ifs <;> exact ⟨rfl, rfl⟩
  · intro lo r hrun hno
    exact device_paths_filter_empty hno hrun

/-- Witness for the amended claim C7: the lower-case vendor line stores
abcd as written, and the non-matching filter ABCD:9999 yields the empty
path list on the lower-case stream. -/
theorem claim_C7_amended_witness :
    (c7ws.found_vendor_id = some "abcd" ∧ c7ws.found_product_id = some "1234") ∧
    c7wr.device_paths = [] := by
  constructor
  · exact (claim_C7_amended wBase none none).1 c10s "P: Vendor=abcd ProdID=1234"
      "abcd" "1234" "001" "002" c7ws (by decide) rfl rfl (by decide)
  · refine (claim_C7_amended wLower (some "ABCD") (some "9999")).2 false c7wr
      (by decide) ?_
    intro l hl a b hvp hcon
    have hlines : wLower.debugLines =
        ["T: Bus=1 Dev#= 2", "P: Vendor=abcd ProdID=1234"] := rfl
    rw [hlines] at hl
    simp only [List.mem_cons, List.mem_singleton, List.not_mem_nil, or_false] at hl
    rcases hl with rfl | rfl
    · have h0 : matchT "T: Bus=1 Dev#= 2" = some (1, 2) := by decide
      exact Option.noConfusion ((matchT_excl h0).2.2.symm.trans hvp)
    · have h0 : matchVendorProd "P: Vendor=abcd ProdID=1234" =
          some ("abcd", "1234") := by decide
      have hab := (Option.some.injEq _ _).mp (h0.symm.trans hvp)
      have ha : a = "abcd" := (congrArg Prod.fst hab).symm
      rw [ha] at hcon
      exact absurd hcon.1 (by decide)

/-- Claim C8: the three control codes are the 8-bit tag U (85) shifted
left by eight, or'd with the command number, and the signal names map to
them in order. -/
theorem claim_C8 :
    Char.toNat 'U' = 85 ∧
    UsbResetter.USBDEVFS_RESET = 85 * 256 + 20 ∧
    UsbResetter.USBDEVFS_RESET = 21780 ∧
    UsbResetter.USBDEVFS_DISCONNECT = 85 * 256 + 22 ∧
    UsbResetter.USBDEVFS_DISCONNECT = 21782 ∧
    UsbResetter.USBDEVFS_CONNECT = 85 * 256 + 23 ∧
    UsbResetter.USBDEVFS_CONNECT = 21783 ∧
    UsbResetter.sigOf "reset" = some UsbResetter.USBDEVFS_RESET ∧
    UsbResetter.sigOf "disconnect" = some UsbResetter.USBDEVFS_DISCONNECT ∧
    UsbResetter.sigOf "connect" = some UsbResetter.USBDEVFS_CONNECT := by
  decide

/-- Claim C9: with exactly one of the two filters supplied as a non-empty
string and the other absent, get_usb_hubs returns the empty hub list over
every hub tree — the matching conjunct compares the absent filter against
a read string and the unfiltered disjunct requires both filters falsy. -/
theorem claim_C9 (w : World) (s : String) (hs : s ≠ "") :
    (UsbResetter.get_usb_hubs w (some s) none).1 = [] ∧
    (UsbResetter.get_usb_hubs w none (some s)).1 = [] := by
  simp only [UsbResetter.get_usb_hubs]
  exact get_usb_hubs_loop_single hs w.glob_usb_devices

/-- Witness for claim C9 on a tree with one hub whose id files are
readable as 8086:0001. -/
theorem claim_C9_witness :
    (UsbResetter.get_usb_hubs wHubs (some "8086") none).1 = [] ∧
    (UsbResetter.get_usb_hubs wHubs none (some "8086")).1 = [] := by
  exact claim_C9 wHubs "8086" (by decide)

/-- Claim C10: every path in the returned list satisfied os.path.exists
when its matching vendor/product line was processed; and a matching
device whose path does not exist is omitted from the list and reported
with its bus and device numbers, without raising. -/
theorem claim_C10 (w : World) (v p : Option String) :
    (∀ (lo : Bool) (r : ParseState),
      UsbResetter.get_usb_devices_paths w v p lo = .ok r →
      ∀ q ∈ r.device_paths, w.path_exists q = true) ∧
    (∀ (s : ParseState) (line a b bs ds : String),
      matchVendorProd line = some (a, b) →
      s.bus = some bs → s.dev = some ds → v = some a → p = some b →
      w.path_exists (UsbResetter.devicePathOf bs ds) = false →
      UsbResetter.processLine w v p s line =
        .ok { s with found_vendor_id := some a, found_product_id := some b,
                     device_path := some (UsbResetter.devicePathOf bs ds),
                     printed := s.printed ++ [UsbResetter.pathMissingMsg bs ds] }) := by
  constructor
  · intro lo r h
    exact device_paths_all_exist h
  · intro s line a b bs ds hvp hb hd hv hp hex
    rw [UsbResetter.processLine_P s hvp,
      UsbResetter.stepVendorProd_some s hvp hb hd]
    rw [if_pos ⟨hv, hp⟩, if_neg (by simp [hex])]

/-- Witness for claim C10: the returned path of the matching run exists
in the world, and a matching vendor/product line over a world where the
path is absent leaves the path list unchanged and prints the diagnostic
naming bus 001 and dev 002. -/
theorem claim_C10_witness :
    wLower.path_exists "/dev/bus/usb/001/002" = true ∧
    UsbResetter.processLine wBase (some "ABCD") (some "1234") c10s
        "P: Vendor=ABCD ProdID=1234" =
      .ok { c10s with found_vendor_id := some "ABCD", found_product_id := some "1234",
                      device_path := some (UsbResetter.devicePathOf "001" "002"),
                      printed := c10s.printed ++ [UsbResetter.pathMissingMsg "001" "002"] } := by
  constructor
  · exact (claim_C10 wLower (some "abcd") (some "1234")).1 false c10r (by decide)
      "/dev/bus/usb/001/002" (by decide)
  · exact (claim_C10 wBase (some "ABCD") (some "1234")).2 c10s
      "P: Vendor=ABCD ProdID=1234" "ABCD" "1234" "001" "002"
      (by decide) rfl rfl rfl rfl (by decide)
